import Mathlib

/-!
Shallow embedding of the tirocks-sys safety layer
(src/tirocks-sys/src/lib.rs): the slice bridge `r`/`s`, the
`rocksdb_Status` record with its constructors, accessors and cleanup, and
the call-protocol wrapper `ffi_try`.

Native memory is modelled explicitly: a heap of allocated blocks, each a
byte list, with a log of the addresses freed so that release happening
exactly once is a provable statement.  Pointers are naturals, 0 standing
for the null pointer.  Bytes are naturals (values below 256 in every run,
though nothing here depends on the bound).  A Rust panic is modelled as
the `none` branch of an `Option` result.
-/

/-- Modelled from the spec: the native heap behind the two helper entry
points `crocksdb_to_cplus_array` and `crocksdb_free_cplus_array` (their C
implementation is outside this crate).  `next` is the next fresh address
(never 0, so fresh pointers are never null), `blocks` maps each live
address to the bytes stored there, and `freeLog` records every address
passed to the deallocator, in order. -/
structure Heap where
  next : Nat
  blocks : List (Nat × List Nat)
  freeLog : List Nat
deriving Repr, DecidableEq

/-- Modelled from the spec: the native allocator helper.  It copies the
given bytes into a freshly allocated, null-terminated native buffer and
returns its address. -/
def crocksdb_to_cplus_array (src : List Nat) (h : Heap) : Nat × Heap :=
  (h.next,
   { next := h.next + src.length + 1
     blocks := (h.next, src ++ [0]) :: h.blocks
     freeLog := h.freeLog })

/-- Modelled from the spec: the native deallocator helper paired with
`crocksdb_to_cplus_array`.  It releases the block at the given address and
records the free in the log. -/
def crocksdb_free_cplus_array (p : Nat) (h : Heap) : Heap :=
  { next := h.next
    blocks := h.blocks.filter (fun b => b.1 != p)
    freeLog := h.freeLog ++ [p] }

/-- The bytes stored at address `p`, read from the most recent block
registered there ([] when nothing is allocated at `p`). -/
def heapBytes (h : Heap) (p : Nat) : List Nat :=
  match h.blocks.find? (fun b => b.1 == p) with
  | some b => b.2
  | none => []

/-- Reading a null-terminated C string: the bytes before the first zero
byte, as `CStr::from_ptr(..).to_bytes()` returns them. -/
def cstrRead (l : List Nat) : List Nat :=
  l.takeWhile (fun b => b != 0)

/-- Whether a byte list is well-formed UTF-8 (RFC 3629), the check behind
`CStr::to_str`.  `isCont b` accepts a continuation byte. -/
def isCont (b : Nat) : Bool :=
  0x80 ≤ b && b ≤ 0xBF

/-- UTF-8 validity of a byte list, as `str::from_utf8` decides it. -/
def utf8Valid (l : List Nat) : Bool :=
  match l with
  | [] => true
  | b :: rest =>
    if b ≤ 0x7F then utf8Valid rest
    else if 0xC2 ≤ b && b ≤ 0xDF then
      match rest with
      | b1 :: rest1 => isCont b1 && utf8Valid rest1
      | [] => false
    else if b == 0xE0 then
      match rest with
      | b1 :: b2 :: rest2 =>
        (0xA0 ≤ b1 && b1 ≤ 0xBF) && isCont b2 && utf8Valid rest2
      | _ => false
    else if (0xE1 ≤ b && b ≤ 0xEC) || b == 0xEE || b == 0xEF then
      match rest with
      | b1 :: b2 :: rest2 => isCont b1 && isCont b2 && utf8Valid rest2
      | _ => false
    else if b == 0xED then
      match rest with
      | b1 :: b2 :: rest2 =>
        (0x80 ≤ b1 && b1 ≤ 0x9F) && isCont b2 && utf8Valid rest2
      | _ => false
    else if b == 0xF0 then
      match rest with
      | b1 :: b2 :: b3 :: rest3 =>
        (0x90 ≤ b1 && b1 ≤ 0xBF) && isCont b2 && isCont b3 && utf8Valid rest3
      | _ => false
    else if 0xF1 ≤ b && b ≤ 0xF3 then
      match rest with
      | b1 :: b2 :: b3 :: rest3 =>
        isCont b1 && isCont b2 && isCont b3 && utf8Valid rest3
      | _ => false
    else if b == 0xF4 then
      match rest with
      | b1 :: b2 :: b3 :: rest3 =>
        (0x80 ≤ b1 && b1 ≤ 0x8F) && isCont b2 && isCont b3 && utf8Valid rest3
      | _ => false
    else false

/-- The bytes of an ASCII string, one byte per character. -/
def asciiBytes (t : String) : List Nat :=
  t.toList.map Char.toNat

/-- A Rust byte-slice view `&[u8]`: a fat pointer, data address plus
length. -/
structure RustSlice where
  ptr : Nat
  len : Nat
deriving Repr, DecidableEq

/-- The native slice descriptor `rocksdb_Slice`: a data pointer and a
size, laid out exactly like a Rust slice view. -/
structure rocksdb_Slice where
  data_ : Nat
  size_ : Nat
deriving Repr, DecidableEq

/-- `r`: convert a Rust slice to a rocksdb slice (src/lib.rs lines 28-33),
same pointer, same length, no copy. -/
def r (src : RustSlice) : rocksdb_Slice :=
  { data_ := src.ptr, size_ := src.len }

/-- `s`: convert a rocksdb slice to a Rust slice (src/lib.rs lines 43-45),
same pointer, same length, no copy. -/
def s (src : rocksdb_Slice) : RustSlice :=
  { ptr := src.data_, len := src.size_ }

/-- The bytes a view of length `n` at address `p` references in memory
`m`. -/
def readBytes (m : Nat → Nat) (p n : Nat) : List Nat :=
  (List.range n).map (fun i => m (p + i))

/-- `rocksdb_Status::Code` (generated bindings; variants as in the native
status model, `kOk` the success class). -/
inductive rocksdb_Status_Code where
  | kOk
  | kNotFound
  | kCorruption
  | kNotSupported
  | kInvalidArgument
  | kIOError
  | kMergeInProgress
  | kIncomplete
  | kShutdownInProgress
  | kTimedOut
  | kAborted
  | kBusy
  | kExpired
  | kTryAgain
  | kCompactionTooLarge
  | kColumnFamilyDropped
deriving Repr, DecidableEq

/-- `rocksdb_Status::SubCode` (generated bindings; finer classification,
`kNone` the default). -/
inductive rocksdb_Status_SubCode where
  | kNone
  | kMutexTimeout
  | kLockTimeout
  | kLockLimit
  | kNoSpace
  | kDeadlock
  | kStaleFile
  | kMemoryLimit
  | kSpaceLimit
  | kPathNotFound
deriving Repr, DecidableEq

/-- `rocksdb_Status::Severity` (generated bindings; `kNoError` the
default). -/
inductive rocksdb_Status_Severity where
  | kNoError
  | kSoftError
  | kHardError
  | kFatalError
  | kUnrecoverableError
deriving Repr, DecidableEq

/-- The `rocksdb_Status` record: code, sub-code, severity and the state
pointer (0 = null = no message buffer). -/
structure rocksdb_Status where
  code_ : rocksdb_Status_Code
  subcode_ : rocksdb_Status_SubCode
  sev_ : rocksdb_Status_Severity
  state_ : Nat
deriving Repr, DecidableEq

/-- `rocksdb_Status::with_code` (src/lib.rs lines 49-56): a status with
the given code, sub-code `kNone`, severity `kNoError` and a null state
pointer. -/
def rocksdb_Status.with_code (code : rocksdb_Status_Code) : rocksdb_Status :=
  { code_ := code
    subcode_ := rocksdb_Status_SubCode.kNone
    sev_ := rocksdb_Status_Severity.kNoError
    state_ := 0 }

/-- `rocksdb_Status::with_error` (src/lib.rs lines 64-78).  The
`assert_ne!(code, kOk)` panic is the `none` result.  A non-empty message
is copied into a fresh native buffer via `crocksdb_to_cplus_array`; an
empty one allocates nothing and leaves the pointer null. -/
def rocksdb_Status.with_error (code : rocksdb_Status_Code) (state : List Nat)
    (h : Heap) : Option (rocksdb_Status × Heap) :=
  if code = rocksdb_Status_Code.kOk then none
  else if !state.isEmpty then
    let pa := crocksdb_to_cplus_array state h
    some ({ code_ := code
            subcode_ := rocksdb_Status_SubCode.kNone
            sev_ := rocksdb_Status_Severity.kNoError
            state_ := pa.1 }, pa.2)
  else
    some ({ code_ := code
            subcode_ := rocksdb_Status_SubCode.kNone
            sev_ := rocksdb_Status_Severity.kNoError
            state_ := 0 }, h)

/-- `rocksdb_Status::clear_state` (src/lib.rs lines 81-89): free the state
buffer when the pointer is non-null and null the pointer; do nothing when
it is already null. -/
def rocksdb_Status.clear_state (st : rocksdb_Status) (h : Heap) :
    rocksdb_Status × Heap :=
  if st.state_ = 0 then (st, h)
  else ({ st with state_ := 0 }, crocksdb_free_cplus_array st.state_ h)

/-- `Drop for rocksdb_Status` (src/lib.rs lines 142-144): dropping calls
`clear_state`. -/
def rocksdb_Status.drop (st : rocksdb_Status) (h : Heap) :
    rocksdb_Status × Heap :=
  st.clear_state h

/-- `rocksdb_Status::ok` (src/lib.rs lines 92-94). -/
def rocksdb_Status.ok (st : rocksdb_Status) : Bool :=
  decide (st.code_ = rocksdb_Status_Code.kOk)

/-- `rocksdb_Status::state` (src/lib.rs lines 97-103): `None` when the
pointer is null, else the buffer read as a null-terminated C string. -/
def rocksdb_Status.state (st : rocksdb_Status) (h : Heap) :
    Option (List Nat) :=
  if st.state_ = 0 then none
  else some (cstrRead (heapBytes h st.state_))

/-- `rocksdb_Status::message` (src/lib.rs lines 106-112): `Ok None` when
the pointer is null, else the C-string bytes decoded as UTF-8, a decoding
failure (`Utf8Error`, here `Unit`) reported as `error`. -/
def rocksdb_Status.message (st : rocksdb_Status) (h : Heap) :
    Except Unit (Option (List Nat)) :=
  if st.state_ = 0 then Except.ok none
  else
    let bs := cstrRead (heapBytes h st.state_)
    if utf8Valid bs then Except.ok (some bs) else Except.error ()

/-- `rocksdb_Status::code` (src/lib.rs lines 115-117). -/
def rocksdb_Status.code (st : rocksdb_Status) : rocksdb_Status_Code :=
  st.code_

/-- `rocksdb_Status::severity` (src/lib.rs lines 120-122). -/
def rocksdb_Status.severity (st : rocksdb_Status) : rocksdb_Status_Severity :=
  st.sev_

/-- `rocksdb_Status::set_severity` (src/lib.rs lines 125-127). -/
def rocksdb_Status.set_severity (st : rocksdb_Status)
    (sev : rocksdb_Status_Severity) : rocksdb_Status :=
  { st with sev_ := sev }

/-- `rocksdb_Status::sub_code` (src/lib.rs lines 130-132). -/
def rocksdb_Status.sub_code (st : rocksdb_Status) : rocksdb_Status_SubCode :=
  st.subcode_

/-- `rocksdb_Status::set_sub_code` (src/lib.rs lines 135-137). -/
def rocksdb_Status.set_sub_code (st : rocksdb_Status)
    (sc : rocksdb_Status_SubCode) : rocksdb_Status :=
  { st with subcode_ := sc }

/-- A native call with leading arguments, as `ffi_try` sees it: it
receives the arguments, the status handle (by mutable reference) and the
native heap, and returns its value together with the updated status and
heap. -/
def NativeCall (γ α : Type) : Type :=
  γ → rocksdb_Status → Heap → α × rocksdb_Status × Heap

/-- A native call whose only parameter is the status handle (the second
arm of the `ffi_try` pattern). -/
def NativeCall0 (α : Type) : Type :=
  rocksdb_Status → Heap → α × rocksdb_Status × Heap

/-- The `ffi_try` wrapped expression, first arm (src/lib.rs lines
149-157): initialize a status handle in the ok state, invoke the native
call with the arguments plus the handle, and yield the value when the
handle is ok, else the error status. -/
def ffi_try {γ α : Type} (f : NativeCall γ α) (arg : γ) (h : Heap) :
    Except rocksdb_Status α × Heap :=
  let status := rocksdb_Status.with_code rocksdb_Status_Code.kOk
  let out := f arg status h
  if out.2.1.ok then (Except.ok out.1, out.2.2)
  else (Except.error out.2.1, out.2.2)

/-- The `ffi_try` wrapped expression, second arm (src/lib.rs lines
158-166): same protocol for a native call taking only the status
handle. -/
def ffi_try0 {α : Type} (f : NativeCall0 α) (h : Heap) :
    Except rocksdb_Status α × Heap :=
  let status := rocksdb_Status.with_code rocksdb_Status_Code.kOk
  let out := f status h
  if out.2.1.ok then (Except.ok out.1, out.2.2)
  else (Except.error out.2.1, out.2.2)

/-- An enclosing operation around the first `ffi_try` arm: the early
`return Err(status.into())` leaves the operation, so the continuation `k`
(the code after the wrapped call) runs only on the ok path. -/
def runFfiTry {γ α β : Type} (f : NativeCall γ α) (arg : γ)
    (k : α → Heap → Except rocksdb_Status β × Heap) (h : Heap) :
    Except rocksdb_Status β × Heap :=
  match ffi_try f arg h with
  | (Except.ok v, h2) => k v h2
  | (Except.error e, h2) => (Except.error e, h2)

/-- An enclosing operation around the second `ffi_try` arm. -/
def runFfiTry0 {α β : Type} (f : NativeCall0 α)
    (k : α → Heap → Except rocksdb_Status β × Heap) (h : Heap) :
    Except rocksdb_Status β × Heap :=
  match ffi_try0 f h with
  | (Except.ok v, h2) => k v h2
  | (Except.error e, h2) => (Except.error e, h2)

/-- A heap with nothing allocated, first fresh address 1. -/
def emptyHeap : Heap :=
  { next := 1, blocks := [], freeLog := [] }

/-- Reading a C string stops at the terminator the allocator appended:
appending the trailing zero does not change the bytes read back. -/
theorem cstrRead_append_zero (l : List Nat) : cstrRead (l ++ [0]) = cstrRead l := by
  induction l with
  | nil => rfl
  | cons a l ih =>
    simp only [cstrRead, List.cons_append, List.takeWhile_cons] at *
    by_cases ha : a = 0
    · simp [ha]
    · simp [ha, ih]

/-- Claim C1: releasing a Status Record via `clear_state` (to which `Drop`
delegates) frees the native state buffer exactly when the state pointer is
non-null, recording exactly one free, and the pointer is null immediately
afterwards; on a record whose pointer is already null it changes nothing
and frees nothing, so a second release of the same logical resource is a
safe no-op. -/
theorem clear_state_release_spec (st : rocksdb_Status) (h : Heap) :
    st.drop h = st.clear_state h
    ∧ (st.clear_state h).1.state_ = 0
    ∧ (st.state_ = 0 → st.clear_state h = (st, h))
    ∧ (st.state_ ≠ 0 →
        st.clear_state h =
          ({ st with state_ := 0 }, crocksdb_free_cplus_array st.state_ h)
        ∧ (st.clear_state h).2.freeLog = h.freeLog ++ [st.state_])
    ∧ (st.state_ = 0 → (st.clear_state h).2.freeLog = h.freeLog)
    ∧ (st.clear_state h).1.clear_state (st.clear_state h).2 = st.clear_state h := by
  by_cases h0 : st.state_ = 0 <;>
    simp [rocksdb_Status.drop, rocksdb_Status.clear_state,
      crocksdb_free_cplus_array, h0]

/-- Claim C2: `with_error` panics (modelled as the `none` result) exactly
when it is given the ok code; for every non-ok code it returns a
status. -/
theorem with_error_ok_panics (code : rocksdb_Status_Code) (msg : List Nat)
    (h : Heap) :
    (rocksdb_Status.with_error code msg h = none ↔
      code = rocksdb_Status_Code.kOk)
    ∧ (code ≠ rocksdb_Status_Code.kOk →
        (rocksdb_Status.with_error code msg h).isSome = true) := by
  by_cases hc : code = rocksdb_Status_Code.kOk <;>
    cases msg <;> simp [rocksdb_Status.with_error, hc]

/-- Claim C5: the Slice Bridge round trip `s (r v)` preserves the data
pointer and the length, and the bytes the view references are unchanged
(neither direction touches memory). -/
theorem slice_bridge_round_trip (v : RustSlice) (m : Nat → Nat) :
    s (r v) = v
    ∧ (r v).data_ = v.ptr
    ∧ (r v).size_ = v.len
    ∧ readBytes m (s (r v)).ptr (s (r v)).len = readBytes m v.ptr v.len :=
  ⟨rfl, rfl, rfl, rfl⟩

/-- Claim C6: the ok-state constructor yields a record that reports ok,
has no state buffer, code `kOk`, severity `kNoError` and sub-code
`kNone`. -/
theorem with_code_ok_defaults (h : Heap) :
    (rocksdb_Status.with_code rocksdb_Status_Code.kOk).ok = true
    ∧ (rocksdb_Status.with_code rocksdb_Status_Code.kOk).state h = none
    ∧ (rocksdb_Status.with_code rocksdb_Status_Code.kOk).code =
        rocksdb_Status_Code.kOk
    ∧ (rocksdb_Status.with_code rocksdb_Status_Code.kOk).severity =
        rocksdb_Status_Severity.kNoError
    ∧ (rocksdb_Status.with_code rocksdb_Status_Code.kOk).sub_code =
        rocksdb_Status_SubCode.kNone := by
  refine ⟨rfl, ?_, rfl, rfl, rfl⟩
  simp [rocksdb_Status.state, rocksdb_Status.with_code]

/-- Claim C8: `message` returns `Ok none` exactly when the state buffer is
absent, a decoding error exactly when a buffer is present whose C-string
bytes are not valid UTF-8, and `Ok (some bytes)` otherwise; `state` never
fails, returning `none` when absent and the raw bytes when present. -/
theorem message_state_classification (st : rocksdb_Status) (h : Heap) :
    (st.message h = Except.ok none ↔ st.state_ = 0)
    ∧ (st.message h = Except.error () ↔
        st.state_ ≠ 0 ∧ utf8Valid (cstrRead (heapBytes h st.state_)) = false)
    ∧ (st.state_ ≠ 0 ∧ utf8Valid (cstrRead (heapBytes h st.state_)) = true ↔
        st.message h = Except.ok (some (cstrRead (heapBytes h st.state_))))
    ∧ st.state h =
        (if st.state_ = 0 then none
         else some (cstrRead (heapBytes h st.state_))) := by
  by_cases h0 : st.state_ = 0 <;>
    by_cases hv : utf8Valid (cstrRead (heapBytes h st.state_)) = true <;>
      simp_all [rocksdb_Status.message, rocksdb_Status.state]

/-- The message bytes of the end-to-end example, one byte per ASCII
character of "x does not exist". -/
def invalidArgMsg : List Nat :=
  asciiBytes "x does not exist"

/-- Claim C7: `with_error` with code `kInvalidArgument` and message
"x does not exist" yields a record that is not ok, has that code, and
whose `message` reads back exactly those bytes; the bytes were copied into
a freshly allocated, null-terminated native buffer. -/
theorem with_error_invalid_argument_message (h : Heap) (hnz : h.next ≠ 0) :
    ∃ st h2,
      rocksdb_Status.with_error rocksdb_Status_Code.kInvalidArgument
          invalidArgMsg h = some (st, h2)
      ∧ st.ok = false
      ∧ st.code = rocksdb_Status_Code.kInvalidArgument
      ∧ st.message h2 = Except.ok (some invalidArgMsg)
      ∧ st.state_ = h.next
      ∧ h2.blocks = (h.next, invalidArgMsg ++ [0]) :: h.blocks := by
  refine ⟨{ code_ := rocksdb_Status_Code.kInvalidArgument
            subcode_ := rocksdb_Status_SubCode.kNone
            sev_ := rocksdb_Status_Severity.kNoError
            state_ := h.next },
          { next := h.next + invalidArgMsg.length + 1
            blocks := (h.next, invalidArgMsg ++ [0]) :: h.blocks
            freeLog := h.freeLog }, rfl, rfl, rfl, ?_, rfl, rfl⟩
  have h1 : heapBytes
      { next := h.next + invalidArgMsg.length + 1
        blocks := (h.next, invalidArgMsg ++ [0]) :: h.blocks
        freeLog := h.freeLog } h.next = invalidArgMsg ++ [0] := by
    simp [heapBytes]
  have h2 : cstrRead invalidArgMsg = invalidArgMsg := by decide
  have h3 : utf8Valid invalidArgMsg = true := by decide
  simp [rocksdb_Status.message, hnz, h1, cstrRead_append_zero, h2, h3]

/-- Claim C7 witness: the construction at the empty heap. -/
theorem with_error_invalid_argument_message_witness :
    ∃ st h2,
      rocksdb_Status.with_error rocksdb_Status_Code.kInvalidArgument
          invalidArgMsg emptyHeap = some (st, h2)
      ∧ st.ok = false
      ∧ st.code = rocksdb_Status_Code.kInvalidArgument
      ∧ st.message h2 = Except.ok (some invalidArgMsg)
      ∧ st.state_ = emptyHeap.next
      ∧ h2.blocks = (emptyHeap.next, invalidArgMsg ++ [0]) :: emptyHeap.blocks :=
  with_error_invalid_argument_message emptyHeap (by decide)

/-- Claim C9: a non-ok `with_error` with an empty message allocates
nothing: the heap is returned unchanged, the state pointer is null, and
`state`/`message` report the message as absent. -/
theorem with_error_empty_message_no_alloc (code : rocksdb_Status_Code)
    (h : Heap) (hc : code ≠ rocksdb_Status_Code.kOk) :
    rocksdb_Status.with_error code [] h =
      some ({ code_ := code
              subcode_ := rocksdb_Status_SubCode.kNone
              sev_ := rocksdb_Status_Severity.kNoError
              state_ := 0 }, h)
    ∧ rocksdb_Status.state
        { code_ := code
          subcode_ := rocksdb_Status_SubCode.kNone
          sev_ := rocksdb_Status_Severity.kNoError
          state_ := 0 } h = none
    ∧ rocksdb_Status.message
        { code_ := code
          subcode_ := rocksdb_Status_SubCode.kNone
          sev_ := rocksdb_Status_Severity.kNoError
          state_ := 0 } h = Except.ok none := by
  refine ⟨?_, rfl, rfl⟩
  simp [rocksdb_Status.with_error, hc]

/-- Claim C9 witness: an IO error with an empty message at the empty
heap. -/
theorem with_error_empty_message_no_alloc_witness :
    rocksdb_Status.with_error rocksdb_Status_Code.kIOError [] emptyHeap =
      some ({ code_ := rocksdb_Status_Code.kIOError
              subcode_ := rocksdb_Status_SubCode.kNone
              sev_ := rocksdb_Status_Severity.kNoError
              state_ := 0 }, emptyHeap) :=
  (with_error_empty_message_no_alloc rocksdb_Status_Code.kIOError emptyHeap
    (by decide)).1

/-- Claim C10: the state buffer is read back as a null-terminated C
string, so `state` after a non-empty `with_error` returns the message
truncated at its first zero byte; it returns exactly the message only when
the message has no interior zero.  `with_error` always sets sub-code
`kNone` and severity `kNoError`. -/
theorem with_error_state_truncation (code : rocksdb_Status_Code)
    (msg : List Nat) (h : Heap) (hc : code ≠ rocksdb_Status_Code.kOk)
    (hm : msg ≠ []) (hnz : h.next ≠ 0) :
    ∃ st h2,
      rocksdb_Status.with_error code msg h = some (st, h2)
      ∧ st.sub_code = rocksdb_Status_SubCode.kNone
      ∧ st.severity = rocksdb_Status_Severity.kNoError
      ∧ st.state h2 = some (cstrRead msg)
      ∧ (0 ∉ msg → st.state h2 = some msg)
      ∧ (0 ∈ msg → st.state h2 ≠ some msg) := by
  refine ⟨{ code_ := code
            subcode_ := rocksdb_Status_SubCode.kNone
            sev_ := rocksdb_Status_Severity.kNoError
            state_ := h.next },
          { next := h.next + msg.length + 1
            blocks := (h.next, msg ++ [0]) :: h.blocks
            freeLog := h.freeLog }, ?_, rfl, rfl, ?_, ?_, ?_⟩
  · simp [rocksdb_Status.with_error, hc, crocksdb_to_cplus_array, hm]
  · have h1 : heapBytes
        { next := h.next + msg.length + 1
          blocks := (h.next, msg ++ [0]) :: h.blocks
          freeLog := h.freeLog } h.next = msg ++ [0] := by
      simp [heapBytes]
    simp [rocksdb_Status.state, hnz, h1, cstrRead_append_zero]
  · intro hz
    have h1 : heapBytes
        { next := h.next + msg.length + 1
          blocks := (h.next, msg ++ [0]) :: h.blocks
          freeLog := h.freeLog } h.next = msg ++ [0] := by
      simp [heapBytes]
    have h2 : cstrRead msg = msg := by
      apply List.takeWhile_eq_self_iff.mpr
      intro x hx
      simp only [bne_iff_ne, ne_eq]
      intro hx0
      exact hz (hx0 ▸ hx)
    simp [rocksdb_Status.state, hnz, h1, cstrRead_append_zero, h2]
  · intro hz
    have h1 : heapBytes
        { next := h.next + msg.length + 1
          blocks := (h.next, msg ++ [0]) :: h.blocks
          freeLog := h.freeLog } h.next = msg ++ [0] := by
      simp [heapBytes]
    have h2 : cstrRead msg ≠ msg := by
      intro he
      have := List.takeWhile_eq_self_iff.mp he 0 hz
      simp at this
    simp [rocksdb_Status.state, hnz, h1, cstrRead_append_zero, h2]

/-- Claim C10 witness: an IO error whose message holds an interior zero
byte, at the empty heap. -/
theorem with_error_state_truncation_witness :
    ∃ st h2,
      rocksdb_Status.with_error rocksdb_Status_Code.kIOError [97, 0, 98]
          emptyHeap = some (st, h2)
      ∧ st.sub_code = rocksdb_Status_SubCode.kNone
      ∧ st.severity = rocksdb_Status_Severity.kNoError
      ∧ st.state h2 = some (cstrRead [97, 0, 98])
      ∧ (0 ∉ [97, 0, 98] → st.state h2 = some [97, 0, 98])
      ∧ (0 ∈ [97, 0, 98] → st.state h2 ≠ some [97, 0, 98]) :=
  with_error_state_truncation rocksdb_Status_Code.kIOError [97, 0, 98]
    emptyHeap (by decide) (by decide) (by decide)

/-- A concrete failing native call: it stores an IO error with sub-code
`kNoSpace` and severity `kFatalError` in the status handle and returns
7. -/
def failCall : NativeCall Unit Nat :=
  fun _ _ h =>
    (7, { code_ := rocksdb_Status_Code.kIOError
          subcode_ := rocksdb_Status_SubCode.kNoSpace
          sev_ := rocksdb_Status_Severity.kFatalError
          state_ := 0 }, h)

/-- The same failing native call in the status-only shape, returning 9. -/
def failCall0 : NativeCall0 Nat :=
  fun _ h =>
    (9, { code_ := rocksdb_Status_Code.kIOError
          subcode_ := rocksdb_Status_SubCode.kNoSpace
          sev_ := rocksdb_Status_Severity.kFatalError
          state_ := 0 }, h)

/-- A concrete succeeding native call: it leaves the status handle as
received and returns 11. -/
def okCall : NativeCall Unit Nat :=
  fun _ st h => (11, st, h)

/-- The succeeding native call in the status-only shape, returning 13. -/
def okCall0 : NativeCall0 Nat :=
  fun st h => (13, st, h)

/-- A continuation standing for the code after the wrapped call. -/
def afterCall : Nat → Heap → Except rocksdb_Status Nat × Heap :=
  fun n h => (Except.ok (n + 1), h)

/-- A second, observably different continuation. -/
def afterCallAlt : Nat → Heap → Except rocksdb_Status Nat × Heap :=
  fun n h => (Except.ok (n + 2), h)

/-- Claim C3: when the native call wrapped by `ffi_try` leaves a non-ok
status, the enclosing operation returns early with the error status the
call stored — the very record, so code, sub-code, severity and message
pointer are carried exactly — and the code after the wrapped call (the
continuation) is never executed: the outcome is the same for every
continuation.  Both call shapes behave so. -/
theorem ffi_try_failure_short_circuits {γ α β α2 β2 : Type}
    (f : NativeCall γ α) (arg : γ) (f0 : NativeCall0 α2)
    (k kalt : α → Heap → Except rocksdb_Status β × Heap)
    (k0 k0alt : α2 → Heap → Except rocksdb_Status β2 × Heap)
    (h h0 : Heap)
    (hfail : (f arg (rocksdb_Status.with_code rocksdb_Status_Code.kOk)
        h).2.1.ok = false)
    (hfail0 : (f0 (rocksdb_Status.with_code rocksdb_Status_Code.kOk)
        h0).2.1.ok = false) :
    runFfiTry f arg k h =
      (Except.error
        (f arg (rocksdb_Status.with_code rocksdb_Status_Code.kOk) h).2.1,
       (f arg (rocksdb_Status.with_code rocksdb_Status_Code.kOk) h).2.2)
    ∧ runFfiTry f arg k h = runFfiTry f arg kalt h
    ∧ runFfiTry0 f0 k0 h0 =
      (Except.error
        (f0 (rocksdb_Status.with_code rocksdb_Status_Code.kOk) h0).2.1,
       (f0 (rocksdb_Status.with_code rocksdb_Status_Code.kOk) h0).2.2)
    ∧ runFfiTry0 f0 k0 h0 = runFfiTry0 f0 k0alt h0 := by
  simp [runFfiTry, runFfiTry0, ffi_try, ffi_try0, hfail, hfail0]

/-- Claim C3 witness: the failing calls, concrete continuations and the
empty heap; the outcome carries the stored error record and ignores the
continuation. -/
theorem ffi_try_failure_short_circuits_witness :
    runFfiTry failCall () afterCall emptyHeap =
      (Except.error
        (failCall () (rocksdb_Status.with_code rocksdb_Status_Code.kOk)
          emptyHeap).2.1,
       (failCall () (rocksdb_Status.with_code rocksdb_Status_Code.kOk)
          emptyHeap).2.2)
    ∧ runFfiTry failCall () afterCall emptyHeap =
        runFfiTry failCall () afterCallAlt emptyHeap
    ∧ runFfiTry0 failCall0 afterCall emptyHeap =
      (Except.error
        (failCall0 (rocksdb_Status.with_code rocksdb_Status_Code.kOk)
          emptyHeap).2.1,
       (failCall0 (rocksdb_Status.with_code rocksdb_Status_Code.kOk)
          emptyHeap).2.2)
    ∧ runFfiTry0 failCall0 afterCall emptyHeap =
        runFfiTry0 failCall0 afterCallAlt emptyHeap :=
  ffi_try_failure_short_circuits failCall () failCall0 afterCall afterCallAlt
    afterCall afterCallAlt emptyHeap emptyHeap (by decide) (by decide)

/-- Claim C4: when the native call wrapped by `ffi_try` leaves an ok
status, the wrapped expression yields the native return value unchanged
(and the enclosing operation continues with it); the status handle the
call receives is the one initialized with `with_code kOk`.  Both call
shapes behave so. -/
theorem ffi_try_success_value {γ α β α2 : Type}
    (f : NativeCall γ α) (arg : γ) (f0 : NativeCall0 α2)
    (k : α → Heap → Except rocksdb_Status β × Heap) (h h0 : Heap)
    (hok : (f arg (rocksdb_Status.with_code rocksdb_Status_Code.kOk)
        h).2.1.ok = true)
    (hok0 : (f0 (rocksdb_Status.with_code rocksdb_Status_Code.kOk)
        h0).2.1.ok = true) :
    ffi_try f arg h =
      (Except.ok
        (f arg (rocksdb_Status.with_code rocksdb_Status_Code.kOk) h).1,
       (f arg (rocksdb_Status.with_code rocksdb_Status_Code.kOk) h).2.2)
    ∧ runFfiTry f arg k h =
        k (f arg (rocksdb_Status.with_code rocksdb_Status_Code.kOk) h).1
          (f arg (rocksdb_Status.with_code rocksdb_Status_Code.kOk) h).2.2
    ∧ ffi_try0 f0 h0 =
      (Except.ok
        (f0 (rocksdb_Status.with_code rocksdb_Status_Code.kOk) h0).1,
       (f0 (rocksdb_Status.with_code rocksdb_Status_Code.kOk) h0).2.2) := by
  simp [runFfiTry, ffi_try, ffi_try0, hok, hok0]

/-- Claim C4 witness: the succeeding calls at the empty heap; the wrapped
expressions yield 11 and 13, the values the calls returned. -/
theorem ffi_try_success_value_witness :
    ffi_try okCall () emptyHeap =
      (Except.ok
        (okCall () (rocksdb_Status.with_code rocksdb_Status_Code.kOk)
          emptyHeap).1,
       (okCall () (rocksdb_Status.with_code rocksdb_Status_Code.kOk)
          emptyHeap).2.2)
    ∧ runFfiTry okCall () afterCall emptyHeap =
        afterCall
          (okCall () (rocksdb_Status.with_code rocksdb_Status_Code.kOk)
            emptyHeap).1
          (okCall () (rocksdb_Status.with_code rocksdb_Status_Code.kOk)
            emptyHeap).2.2
    ∧ ffi_try0 okCall0 emptyHeap =
      (Except.ok
        (okCall0 (rocksdb_Status.with_code rocksdb_Status_Code.kOk)
          emptyHeap).1,
       (okCall0 (rocksdb_Status.with_code rocksdb_Status_Code.kOk)
          emptyHeap).2.2) :=
  ffi_try_success_value okCall () okCall0 afterCall emptyHeap emptyHeap
    (by decide) (by decide)
